import Mathlib

/-!
Verification of the data-enrichment pipeline of the Goodreads-Dashboard
repository (src/enrich.py), against its natural-language specification.

The enrichment core is shallowly embedded: a pandas DataFrame becomes an
association list of named columns of Python-like cell values, and the
network fetch is a parameter (a function from a book identifier to the
genre list the scrape produces), so that `enrich_library` here mirrors
`enrich_library` of src/enrich.py lines 43-99 with the thread pool's
result collection replaced by its observable effect: a mapping from each
submitted identifier to its fetched genre list.  Raising code is
embedded as `Option`: `_is_empty_genres` raises ValueError on genre
cells holding multi-element lists (the truth test of `pd.isna(val)` on
such a list is ambiguous), and that exception propagates out of
`enrich_library`, so the enrichment entry point returns `Option
DataFrame` — `none` is a raise, `some t` a normal return of `t`.
-/

/-- A Python cell value as it occurs in the relevant DataFrame columns:
`vnone` stands for None/NaN/pd.NA (everything `pd.isna` accepts), `vstr`
for a str, `vint` for an int, `vlist` for a list of genre strings. -/
inductive PyVal where
  | vnone : PyVal
  | vstr : String → PyVal
  | vint : Int → PyVal
  | vlist : List String → PyVal
deriving Repr, DecidableEq

/-- `pd.isna` on a cell value. -/
def pyIsNa : PyVal → Bool
  | .vnone => true
  | _ => false

/-- Python `str(...)` as applied by `df['Book Id'].astype(str)`
(src/enrich.py line 51).  `str(nan)` is "nan"; ints print their decimal
form; a list prints bracketed (its exact text never matters below: any
bracketed text fails the all-digits test). -/
def pyStr : PyVal → String
  | .vnone => "nan"
  | .vstr s => s
  | .vint n => toString n
  | .vlist l => "[" ++ String.intercalate ", " l ++ "]"

/-- A character Python `str.isdigit` accepts: not only the decimal
digits 0-9 but also characters of Unicode `Numeric_Type=Digit`, such as
the superscript and subscript digits — `"²".isdigit()` is True in
CPython.  The embedding carries the ASCII decimal digits together with
the superscript/subscript digits (CPython additionally accepts the
decimal digits of other scripts, which behave exactly like 0-9 here). -/
def pyIsDigitChar (c : Char) : Bool :=
  c.isDigit ||
    ['¹', '²', '³', '⁰', '⁴', '⁵', '⁶', '⁷', '⁸', '⁹',
     '₀', '₁', '₂', '₃', '₄', '₅', '₆', '₇', '₈', '₉'].contains c

/-- Python `str.isdigit`: true on a nonempty string all of whose
characters are digits in Python's sense (see `pyIsDigitChar`). -/
def pyIsDigit (s : String) : Bool :=
  !s.isEmpty && s.toList.all pyIsDigitChar

/-- A pandas DataFrame: an ordered list of named columns of cells. -/
structure DataFrame where
  cols : List (String × List PyVal)
deriving Repr, DecidableEq

/-- The column labels, in order. -/
def DataFrame.colNames (df : DataFrame) : List String :=
  df.cols.map Prod.fst

/-- `name in df.columns`. -/
def DataFrame.hasCol (df : DataFrame) (name : String) : Bool :=
  df.cols.any (fun c => c.1 == name)

/-- `df[name]`: the cells of the first column labelled `name`
(`[]` when there is no such column). -/
def DataFrame.getCol (df : DataFrame) (name : String) : List PyVal :=
  match df.cols.find? (fun c => c.1 == name) with
  | some c => c.2
  | none => []

/-- `df[name] = vals`: replace the column in place when the label exists,
otherwise append a new column at the end (pandas assignment semantics). -/
def DataFrame.setCol (df : DataFrame) (name : String) (vals : List PyVal) :
    DataFrame :=
  if df.hasCol name then
    ⟨df.cols.map (fun c => if c.1 == name then (name, vals) else c)⟩
  else
    ⟨df.cols ++ [(name, vals)]⟩

/-- `len(df)`: the length of the first column (0 for no columns). -/
def DataFrame.nrows (df : DataFrame) : Nat :=
  match df.cols with
  | [] => 0
  | c :: _ => c.2.length

/-- Well-formedness of a DataFrame value: every column has the common row
count (pandas guarantees this; the association-list embedding must assume
it). -/
def DataFrame.wf (df : DataFrame) : Bool :=
  df.cols.all (fun c => c.2.length == df.nrows)

/-- Python `str.strip()` (no argument): remove leading and trailing
whitespace. -/
def pyStrip (s : String) : String :=
  String.mk
    (((s.toList.dropWhile Char.isWhitespace).reverse.dropWhile
      Char.isWhitespace).reverse)

/-- `_is_empty_genres` of src/enrich.py lines 57-66, with its exception
behaviour: `some b` is a normal return, `none` is a raised `ValueError`.
The function begins with `if pd.isna(val):`; for a list argument
`pd.isna` is element-wise, producing a boolean array, and the truth test
of an array of two or more elements raises
`ValueError: The truth value of an array with more than one element is
ambiguous` — so a genre cell holding a list of 2+ tags crashes the
classifier.  A one-element array's truth test is legal (and False for a
string tag), and an empty array's is False (with a deprecation warning)
on the numpy lineage this code runs against, so 0- and 1-element lists
fall through to the `isinstance(val, list)` length check.  Scalars
(None/NaN, str, int) take the documented branches: NA is needs-
enrichment, a string that strips to "" or "[]" is needs-enrichment, and
anything else is not. -/
def _is_empty_genres : PyVal → Option Bool
  | .vnone => some true
  | .vlist l => if 2 ≤ l.length then none else some l.isEmpty
  | .vstr s => some (pyStrip s == "" || pyStrip s == "[]")
  | .vint _ => some false

/-- `Series.apply f` for a classifier that can raise: apply `f` to every
cell; if any application raises, the exception propagates and no series
is produced. -/
def seriesApply (f : PyVal → Option Bool) : List PyVal → Option (List Bool)
  | [] => some []
  | v :: vs =>
    match f v with
    | none => none
    | some b =>
      match seriesApply f vs with
      | none => none
      | some bs => some (b :: bs)

/-- The string forms of the identifier column after
`df['Book Id'] = df['Book Id'].astype(str)` (src/enrich.py line 51). -/
def bookIdStrs (df : DataFrame) : List String :=
  (df.getCol "Book Id").map pyStr

/-- The needs-enrichment mask of src/enrich.py lines 53-68: all-True when
there is no Genres column (the code then creates one of pd.NA), otherwise
`df['Genres'].apply(_is_empty_genres)` — which raises (produces `none`)
as soon as a Genres cell holds a multi-element list. -/
def needMask (df : DataFrame) : Option (List Bool) :=
  if df.hasCol "Genres" then seriesApply _is_empty_genres (df.getCol "Genres")
  else some (List.replicate df.nrows true)

/-- Helper for `uniqueFirst`: drop every element already in `seen` and
record each kept element. -/
def uniqueFirstAux (seen : List String) : List String → List String
  | [] => []
  | x :: xs =>
    if seen.contains x then uniqueFirstAux seen xs
    else x :: uniqueFirstAux (x :: seen) xs

/-- `unique()` on a list: first occurrences, in first-occurrence order. -/
def uniqueFirst (l : List String) : List String :=
  uniqueFirstAux [] l

/-- src/enrich.py lines 70-71 applied to a computed mask:
`book_ids_list = df.loc[need_enrich_mask, 'Book Id'].unique().tolist()`
then `[id_str for id_str in book_ids_list if id_str.isdigit()]`. -/
def idsFromMask (df : DataFrame) (mask : List Bool) : List String :=
  (uniqueFirst ((mask.zip (bookIdStrs df)).filterMap
    (fun p => if p.1 then some p.2 else none))).filter pyIsDigit

/-- The resolver of src/enrich.py lines 53-71: the identifiers submitted
for fetching, `none` when the mask computation raises ValueError
(multi-element list genre cell), `some []` when the table has no Book Id
column (line 48 already returned, before any classification). -/
def resolveIds (df : DataFrame) : Option (List String) :=
  if df.hasCol "Book Id" then (needMask df).map (idsFromMask df)
  else some []

/-- The identifiers actually submitted to the thread pool (hence the
network calls made) by `enrich_library`: lines 73-78 submit exactly
`book_ids_list`, submit nothing when it is empty, and also submit
nothing when the classification of lines 57-68 raises first. -/
def enrich_calls (df : DataFrame) : List String :=
  (resolveIds df).getD []

/-- src/enrich.py line 51: `df['Book Id'] = df['Book Id'].astype(str)`
(after the copy of line 50, which the value semantics makes a no-op). -/
def astypeStep (df : DataFrame) : DataFrame :=
  df.setCol "Book Id" ((df.getCol "Book Id").map (fun v => PyVal.vstr (pyStr v)))

/-- The normalisation `enrich_library` applies before resolving, from
src/enrich.py lines 50-55: copy, coerce the Book Id column to string
form, and create a Genres column of pd.NA (line 54) when none exists.
This is the state of the table at line 56, and exactly what the function
returns on the no-fetch paths. -/
def normalizeTable (df : DataFrame) : DataFrame :=
  if df.hasCol "Book Id" then
    if (astypeStep df).hasCol "Genres" then astypeStep df
    else (astypeStep df).setCol "Genres"
      (List.replicate (astypeStep df).nrows PyVal.vnone)
  else df

/-- src/enrich.py lines 73-97 for a successfully resolved identifier
list `ids`: an empty fetch set short-circuits with the normalised table
(lines 73-74), otherwise every id is fetched, `results_map` maps each
submitted identifier to `list(fetch id)` (every future returns — the
scrape absorbs its failures), and the merge of lines 95-97 overwrites
the Genres cell of every row whose (stringified) Book Id is a key. -/
def mergeResult (fetch : String → List String) (df : DataFrame)
    (ids : List String) : DataFrame :=
  if ids.isEmpty then normalizeTable df
  else
    (normalizeTable df).setCol "Genres"
      (((bookIdStrs df).zip ((normalizeTable df).getCol "Genres")).map
        (fun p => if ids.contains p.1 then PyVal.vlist (fetch p.1)
                  else p.2))

/-- `enrich_library` of src/enrich.py lines 43-99, parameterised by
`fetch`, the observable behaviour of `scrape_book_data`: the genre list
each submitted identifier resolves to.  `some t` models a normal return
of the table `t`; `none` models the call raising — which happens exactly
when the classification of lines 57-68 raises ValueError (a Genres cell
holding a multi-element list), the one uncaught exception reachable on
DataFrame inputs.  The input-type guard of lines 44-45 is outside the
embedding (a non-DataFrame argument raises TypeError); the embedding
covers all DataFrame inputs. -/
def enrich_library (fetch : String → List String) (df : DataFrame) :
    Option DataFrame :=
  if df.hasCol "Book Id" then
    -- lines 50-97: normalise, resolve (propagating ValueError), merge
    (resolveIds df).map (mergeResult fetch df)
  else
    -- lines 47-48: no Book Id column, return the input unchanged
    some df

/-- The Genres cells the rows carry just before the merge: the original
Genres column when present, otherwise the freshly created pd.NA column. -/
def preGenres (df : DataFrame) : List PyVal :=
  if df.hasCol "Genres" then df.getCol "Genres"
  else List.replicate df.nrows PyVal.vnone

/-- What the outside world does to one request of `scrape_book_data`
(src/enrich.py lines 23-41): the GET either succeeds with a 2xx page
whose selected genre elements carry the given texts, or
`raise_for_status` raises `HTTPError` with some status, or some other
exception (timeout, parse failure, decode error) is raised. -/
inductive FetchOutcome where
  | ok : List String → FetchOutcome
  | httpError : Nat → FetchOutcome
  | otherExn : FetchOutcome
deriving Repr, DecidableEq

/-- The failure modes of a request: everything except a parsed 2xx page. -/
def FetchOutcome.isFailure : FetchOutcome → Bool
  | .ok _ => false
  | .httpError _ => true
  | .otherExn => true

/-- `scrape_book_data` of src/enrich.py lines 17-41, parameterised by the
world (the outcome each identifier's request meets).  On success it
returns the identifier with the stripped text of each genre element in
document order; both `except` arms (lines 36-41) absorb the failure and
return the identifier with an empty list.  Totality of this definition is
the never-raises contract: every outcome yields a pair. -/
def scrape_book_data (world : String → FetchOutcome) (book_id : String) :
    String × List String :=
  match world book_id with
  | .ok texts => (book_id, texts.map String.trim)
  | .httpError _ => (book_id, [])
  | .otherExn => (book_id, [])

/-- Parameter list of `enrich_library` as defined at src/enrich.py
line 43: the single parameter `df`. -/
def enrich_library_params : List String := ["df"]

/-- Keyword arguments the dashboard passes at src/dashboard.py line 161:
`enrich.enrich_library(read_df, progress_callback=_progress_callback)`. -/
def dashboard_enrich_kwargs : List String := ["progress_callback"]

/-- A Python call binds successfully only if every keyword argument names
a parameter of the callee; otherwise it raises
`TypeError: unexpected keyword argument`. -/
def acceptsKwargs (params kwargs : List String) : Bool :=
  kwargs.all (fun k => params.contains k)

/-! ### Concrete tables and fetch functions used as test inputs -/

/-- The merge-correctness example table: rows id=1 (genres=None),
id=2 (genres=None), id=3 (genres=["Drama"]). -/
def mergeExampleTable : DataFrame :=
  ⟨[("Book Id", [.vstr "1", .vstr "2", .vstr "3"]),
    ("Genres", [PyVal.vnone, PyVal.vnone, .vlist ["Drama"]])]⟩

/-- The merge-correctness example fetch results:
{"1": ["Fiction"], "2": []}. -/
def mergeExampleFetch : String → List String :=
  fun id => if id = "1" then ["Fiction"] else []

/-- A table with two rows sharing identifier "7", one already carrying a
non-empty genre list and one without genre data. -/
def dupIdTable : DataFrame :=
  ⟨[("Book Id", [.vstr "7", .vstr "7"]),
    ("Genres", [.vlist ["Drama"], PyVal.vnone])]⟩

/-- A second duplicate-identifier table, identifier "8": row 0 lacks
genre data, row 1 already holds ["Old"]. -/
def dupIdTable2 : DataFrame :=
  ⟨[("Book Id", [.vstr "8", .vstr "8"]),
    ("Genres", [PyVal.vnone, .vlist ["Old"]])]⟩

/-- A fully enriched table whose Book Id column holds an int: the
resolver finds nothing to fetch, yet astype(str) rewrites the cell. -/
def intIdTable : DataFrame :=
  ⟨[("Book Id", [.vint 5]), ("Genres", [.vlist ["X"]])]⟩

/-- A second int-identifier, fully enriched table. -/
def intIdTable2 : DataFrame :=
  ⟨[("Book Id", [.vint 12]), ("Genres", [.vlist ["Y"]])]⟩

/-- A fully enriched table already in string form: enrichment is the
identity on it. -/
def enrichedTable : DataFrame :=
  ⟨[("Book Id", [.vstr "4"]), ("Genres", [.vlist ["SciFi"]])]⟩

/-- A table with only malformed (non-digit) identifiers. -/
def malformedTable : DataFrame :=
  ⟨[("Book Id", [.vstr "abc123", .vstr "12-34"]),
    ("Genres", [PyVal.vnone, PyVal.vnone])]⟩

/-- A one-row table needing enrichment, identifier "3". -/
def needyTable : DataFrame :=
  ⟨[("Book Id", [.vstr "3"]), ("Genres", [PyVal.vnone])]⟩

/-- A one-row table needing enrichment, identifier "5". -/
def needyTable5 : DataFrame :=
  ⟨[("Book Id", [.vstr "5"]), ("Genres", [PyVal.vnone])]⟩

/-- A three-column table (extra Title column), one row, id "1". -/
def titledTable : DataFrame :=
  ⟨[("Book Id", [.vstr "1"]), ("Title", [.vstr "T"]),
    ("Genres", [PyVal.vnone])]⟩

/-- A table without a Book Id column. -/
def noIdTable : DataFrame :=
  ⟨[("Title", [.vstr "x"])]⟩

/-- A table carrying one fetchable identifier and one malformed one,
both rows needing enrichment. -/
def mixedTable : DataFrame :=
  ⟨[("Book Id", [.vstr "10", .vstr "abc123"]),
    ("Genres", [PyVal.vnone, PyVal.vnone])]⟩

/-- A valid table whose Genres cell holds a two-element list — the shape
`enrich_library`'s own merge writes — on which the classifier raises
ValueError. -/
def crashTable : DataFrame :=
  ⟨[("Book Id", [.vstr "1"]), ("Genres", [.vlist ["Drama", "Fiction"]])]⟩

/-- A table whose identifier is the superscript-two character: not a
decimal digit, but accepted by Python str.isdigit and hence submitted. -/
def superDigitTable : DataFrame :=
  ⟨[("Book Id", [.vstr "²"]), ("Genres", [PyVal.vnone])]⟩

/-- The table `enrich_library` returns on `titledTable` with every fetch
answering ["G"]. -/
def titledOut : DataFrame :=
  ⟨[("Book Id", [.vstr "1"]), ("Title", [.vstr "T"]),
    ("Genres", [.vlist ["G"]])]⟩

/-- A world in which every request fails with HTTP status 404. -/
def allFail404 : String → FetchOutcome :=
  fun _ => FetchOutcome.httpError 404

/-! ### Lemmas about the DataFrame operations -/

lemma find_replace {cols : List (String × List PyVal)} {n : String}
    (vs : List PyVal) (h : cols.any (fun c => c.1 == n) = true) :
    (cols.map (fun c => if c.1 == n then (n, vs) else c)).find?
      (fun c => c.1 == n) = some (n, vs) := by
  induction cols with
  | nil => simp at h
  | cons c cs ih =>
    rw [List.map_cons]
    by_cases hc : c.1 = n
    · rw [if_pos (by simpa using hc)]
      exact List.find?_cons_of_pos _ (by simp)
    · rw [if_neg (by simpa using hc)]
      rw [List.find?_cons_of_neg _ (by simpa using hc)]
      refine ih ?_
      rw [List.any_cons] at h
      simpa [hc] using h

lemma find_replace_ne {cols : List (String × List PyVal)} {n m : String}
    (vs : List PyVal) (h : n ≠ m) :
    (cols.map (fun c => if c.1 == n then (n, vs) else c)).find?
      (fun c => c.1 == m) = cols.find? (fun c => c.1 == m) := by
  induction cols with
  | nil => rfl
  | cons c cs ih =>
    rw [List.map_cons]
    by_cases hc : c.1 = n
    · have hm : ¬ c.1 = m := by rw [hc]; exact h
      rw [if_pos (by simpa using hc)]
      rw [List.find?_cons_of_neg _ (by simpa using h)]
      rw [List.find?_cons_of_neg _ (by simpa using hm)]
      exact ih
    · rw [if_neg (by simpa using hc)]
      by_cases hm : c.1 = m
      · rw [List.find?_cons_of_pos _ (by simpa using hm)]
        rw [List.find?_cons_of_pos _ (by simpa using hm)]
      · rw [List.find?_cons_of_neg _ (by simpa using hm)]
        rw [List.find?_cons_of_neg _ (by simpa using hm)]
        exact ih

lemma find_none_of_not_any {cols : List (String × List PyVal)} {n : String}
    (h : cols.any (fun c => c.1 == n) = false) :
    cols.find? (fun c => c.1 == n) = none := by
  rw [List.find?_eq_none]
  rw [List.any_eq_false] at h
  intro x hx
  simpa using h x hx

lemma any_replace_ne {cols : List (String × List PyVal)} {n m : String}
    (vs : List PyVal) :
    (cols.map (fun c => if c.1 == n then (n, vs) else c)).any
      (fun c => c.1 == m) = cols.any (fun c => c.1 == m) := by
  induction cols with
  | nil => rfl
  | cons c cs ih =>
    rw [List.map_cons, List.any_cons, List.any_cons, ih]
    by_cases hc : c.1 = n
    · rw [if_pos (by simpa using hc), hc]
    · rw [if_neg (by simpa using hc)]

lemma getCol_setCol_self (df : DataFrame) (n : String) (vs : List PyVal) :
    (df.setCol n vs).getCol n = vs := by
  unfold DataFrame.setCol
  by_cases h : df.hasCol n
  · rw [if_pos h]
    unfold DataFrame.getCol
    rw [find_replace vs h]
  · rw [if_neg h]
    unfold DataFrame.getCol
    unfold DataFrame.hasCol at h
    rw [List.find?_append, find_none_of_not_any (Bool.eq_false_iff.mpr h)]
    rw [Option.none_or]
    rw [List.find?_cons_of_pos _ (by simp)]

lemma getCol_setCol_ne (df : DataFrame) {n m : String} (vs : List PyVal)
    (h : n ≠ m) : (df.setCol n vs).getCol m = df.getCol m := by
  unfold DataFrame.setCol
  by_cases hc : df.hasCol n
  · rw [if_pos hc]
    unfold DataFrame.getCol
    rw [find_replace_ne vs h]
  · rw [if_neg hc]
    unfold DataFrame.getCol
    rw [List.find?_append]
    rw [List.find?_cons_of_neg _ (by simpa using h), List.find?_nil]
    rw [Option.or_none]

lemma hasCol_setCol_ne (df : DataFrame) {n m : String} (vs : List PyVal)
    (h : n ≠ m) : (df.setCol n vs).hasCol m = df.hasCol m := by
  unfold DataFrame.setCol
  by_cases hc : df.hasCol n
  · rw [if_pos hc]
    unfold DataFrame.hasCol
    exact any_replace_ne vs
  · rw [if_neg hc]
    unfold DataFrame.hasCol
    rw [List.any_append, List.any_cons, List.any_nil]
    simp [h]

lemma nrows_setCol (df : DataFrame) (n : String) (vs : List PyVal)
    (h : vs.length = df.nrows) : (df.setCol n vs).nrows = df.nrows := by
  obtain ⟨cols⟩ := df
  unfold DataFrame.setCol
  by_cases hc : DataFrame.hasCol ⟨cols⟩ n
  · simp only [hc, if_true]
    cases cols with
    | nil => rfl
    | cons c cs =>
      by_cases h1 : c.1 = n
      · simpa [DataFrame.nrows, h1] using h
      · simp [DataFrame.nrows, h1]
  · simp only [hc, if_false]
    cases cols with
    | nil => simpa [DataFrame.nrows] using h
    | cons c cs => simp [DataFrame.nrows]

lemma length_getCol (df : DataFrame) (n : String) (hwf : df.wf = true)
    (h : df.hasCol n = true) : (df.getCol n).length = df.nrows := by
  unfold DataFrame.getCol
  cases hf : df.cols.find? (fun c => c.1 == n) with
  | none =>
    exfalso
    rw [List.find?_eq_none] at hf
    unfold DataFrame.hasCol at h
    rw [List.any_eq_true] at h
    obtain ⟨c, hc, hp⟩ := h
    exact absurd hp (by simpa using hf c hc)
  | some c =>
    have hm : c ∈ df.cols := List.mem_of_find?_eq_some hf
    unfold DataFrame.wf at hwf
    rw [List.all_eq_true] at hwf
    simpa using hwf c hm

lemma getCol_eq_nil (df : DataFrame) (n : String)
    (h : df.hasCol n = false) : df.getCol n = [] := by
  unfold DataFrame.getCol
  unfold DataFrame.hasCol at h
  rw [find_none_of_not_any h]

lemma length_bookIdStrs (df : DataFrame) (hwf : df.wf = true)
    (hid : df.hasCol "Book Id" = true) :
    (bookIdStrs df).length = df.nrows := by
  unfold bookIdStrs
  rw [List.length_map, length_getCol df _ hwf hid]

lemma seriesApply_length {f : PyVal → Option Bool} :
    ∀ {l : List PyVal} {bs : List Bool},
      seriesApply f l = some bs → bs.length = l.length := by
  intro l
  induction l with
  | nil =>
    intro bs h
    rw [← Option.some.inj h]
    rfl
  | cons v vs ih =>
    intro bs h
    unfold seriesApply at h
    cases hf : f v with
    | none => rw [hf] at h; exact absurd h (by simp)
    | some b =>
      rw [hf] at h
      cases hs : seriesApply f vs with
      | none => rw [hs] at h; exact absurd h (by simp)
      | some bs2 =>
        rw [hs] at h
        rw [← Option.some.inj h]
        simp [ih hs]

lemma length_needMask (df : DataFrame) (mask : List Bool)
    (hwf : df.wf = true) (hmask : needMask df = some mask) :
    mask.length = df.nrows := by
  unfold needMask at hmask
  by_cases hg : df.hasCol "Genres"
  · rw [if_pos hg] at hmask
    rw [seriesApply_length hmask, length_getCol df _ hwf hg]
  · rw [if_neg hg] at hmask
    rw [← Option.some.inj hmask]
    simp

lemma length_preGenres (df : DataFrame) (hwf : df.wf = true) :
    (preGenres df).length = df.nrows := by
  unfold preGenres
  by_cases hg : df.hasCol "Genres"
  · simp [hg, length_getCol df _ hwf hg]
  · simp [hg]

lemma astype_getCol_bookId (df : DataFrame) :
    (astypeStep df).getCol "Book Id" =
      (df.getCol "Book Id").map (fun v => PyVal.vstr (pyStr v)) :=
  getCol_setCol_self df _ _

lemma astype_getCol_ne (df : DataFrame) {m : String} (h : m ≠ "Book Id") :
    (astypeStep df).getCol m = df.getCol m :=
  getCol_setCol_ne df _ (Ne.symm h)

lemma astype_hasCol_ne (df : DataFrame) {m : String} (h : m ≠ "Book Id") :
    (astypeStep df).hasCol m = df.hasCol m :=
  hasCol_setCol_ne df _ (Ne.symm h)

lemma astype_nrows (df : DataFrame) (hwf : df.wf = true)
    (hid : df.hasCol "Book Id" = true) : (astypeStep df).nrows = df.nrows :=
  nrows_setCol df _ _ (by rw [List.length_map, length_getCol df _ hwf hid])

lemma normalize_getCol_genres (df : DataFrame) (hwf : df.wf = true)
    (hid : df.hasCol "Book Id" = true) :
    (normalizeTable df).getCol "Genres" = preGenres df := by
  unfold normalizeTable preGenres
  rw [if_pos hid, astype_hasCol_ne df (by decide)]
  by_cases hg : df.hasCol "Genres"
  · rw [if_pos hg, if_pos hg, astype_getCol_ne df (by decide)]
  · rw [if_neg hg, if_neg hg, getCol_setCol_self, astype_nrows df hwf hid]

lemma normalize_getCol_bookId (df : DataFrame) :
    (normalizeTable df).getCol "Book Id" =
      (df.getCol "Book Id").map (fun v => PyVal.vstr (pyStr v)) := by
  unfold normalizeTable
  by_cases hid : df.hasCol "Book Id"
  · rw [if_pos hid]
    by_cases hg : (astypeStep df).hasCol "Genres"
    · rw [if_pos hg, astype_getCol_bookId]
    · rw [if_neg hg, getCol_setCol_ne _ _ (by decide), astype_getCol_bookId]
  · rw [if_neg hid, getCol_eq_nil df _ (Bool.eq_false_iff.mpr hid)]
    rfl

lemma normalize_getCol_other (df : DataFrame) {m : String}
    (h1 : m ≠ "Book Id") (h2 : m ≠ "Genres") :
    (normalizeTable df).getCol m = df.getCol m := by
  unfold normalizeTable
  by_cases hid : df.hasCol "Book Id"
  · rw [if_pos hid]
    by_cases hg : (astypeStep df).hasCol "Genres"
    · rw [if_pos hg, astype_getCol_ne df h1]
    · rw [if_neg hg, getCol_setCol_ne _ _ (Ne.symm h2), astype_getCol_ne df h1]
  · rw [if_neg hid]

lemma normalize_hasCol_other (df : DataFrame) {m : String}
    (h1 : m ≠ "Book Id") (h2 : m ≠ "Genres") :
    (normalizeTable df).hasCol m = df.hasCol m := by
  unfold normalizeTable
  by_cases hid : df.hasCol "Book Id"
  · rw [if_pos hid]
    by_cases hg : (astypeStep df).hasCol "Genres"
    · rw [if_pos hg, astype_hasCol_ne df h1]
    · rw [if_neg hg, hasCol_setCol_ne _ _ (Ne.symm h2), astype_hasCol_ne df h1]
  · rw [if_neg hid]

lemma normalize_nrows (df : DataFrame) (hwf : df.wf = true) :
    (normalizeTable df).nrows = df.nrows := by
  unfold normalizeTable
  by_cases hid : df.hasCol "Book Id"
  · rw [if_pos hid]
    by_cases hg : (astypeStep df).hasCol "Genres"
    · rw [if_pos hg, astype_nrows df hwf hid]
    · rw [if_neg hg,
        nrows_setCol _ _ _ (by rw [List.length_replicate]),
        astype_nrows df hwf hid]
  · rw [if_neg hid]

lemma mergeResult_getCol_genres (fetch : String → List String)
    (df : DataFrame) (ids : List String) (hwf : df.wf = true)
    (hid : df.hasCol "Book Id" = true) :
    (mergeResult fetch df ids).getCol "Genres" =
      ((bookIdStrs df).zip (preGenres df)).map
        (fun p => if ids.contains p.1 then PyVal.vlist (fetch p.1)
                  else p.2) := by
  unfold mergeResult
  by_cases he : ids.isEmpty
  · rw [if_pos he, normalize_getCol_genres df hwf hid]
    have hids : ids = [] := List.isEmpty_iff.mp he
    rw [hids]
    simp only [List.contains_nil, Bool.false_eq_true, if_false]
    have hlen : (preGenres df).length ≤ (bookIdStrs df).length := by
      rw [length_preGenres df hwf, length_bookIdStrs df hwf hid]
    exact (List.map_snd_zip _ _ hlen).symm
  · rw [if_neg he, getCol_setCol_self, normalize_getCol_genres df hwf hid]

lemma mergeResult_at (fetch : String → List String) (df : DataFrame)
    (ids : List String) (hwf : df.wf = true)
    (hid : df.hasCol "Book Id" = true) (i : Nat) (hi : i < df.nrows) :
    ((mergeResult fetch df ids).getCol "Genres").getD i PyVal.vnone =
      if ids.contains ((bookIdStrs df).getD i "") then
        PyVal.vlist (fetch ((bookIdStrs df).getD i ""))
      else (preGenres df).getD i PyVal.vnone := by
  rw [mergeResult_getCol_genres fetch df ids hwf hid]
  have h1 : i < (bookIdStrs df).length := by
    rw [length_bookIdStrs df hwf hid]; exact hi
  have h2 : i < (preGenres df).length := by
    rw [length_preGenres df hwf]; exact hi
  have hz : i < ((bookIdStrs df).zip (preGenres df)).length := by
    rw [List.length_zip]; exact lt_min h1 h2
  have hm : i < (((bookIdStrs df).zip (preGenres df)).map
      (fun p => if ids.contains p.1 then PyVal.vlist (fetch p.1)
                else p.2)).length := by
    rw [List.length_map]; exact hz
  rw [List.getD_eq_getElem _ _ hm, List.getD_eq_getElem _ _ h1,
    List.getD_eq_getElem _ _ h2, List.getElem_map, List.getElem_zip]

lemma mergeResult_getCol_other (fetch : String → List String)
    (df : DataFrame) (ids : List String) {m : String}
    (h1 : m ≠ "Book Id") (h2 : m ≠ "Genres") :
    (mergeResult fetch df ids).getCol m = df.getCol m := by
  unfold mergeResult
  by_cases he : ids.isEmpty
  · rw [if_pos he, normalize_getCol_other df h1 h2]
  · rw [if_neg he, getCol_setCol_ne _ _ (Ne.symm h2),
      normalize_getCol_other df h1 h2]

lemma mergeResult_hasCol_other (fetch : String → List String)
    (df : DataFrame) (ids : List String) {m : String}
    (h1 : m ≠ "Book Id") (h2 : m ≠ "Genres") :
    (mergeResult fetch df ids).hasCol m = df.hasCol m := by
  unfold mergeResult
  by_cases he : ids.isEmpty
  · rw [if_pos he, normalize_hasCol_other df h1 h2]
  · rw [if_neg he, hasCol_setCol_ne _ _ (Ne.symm h2),
      normalize_hasCol_other df h1 h2]

lemma mergeResult_getCol_bookId (fetch : String → List String)
    (df : DataFrame) (ids : List String) :
    (mergeResult fetch df ids).getCol "Book Id" =
      (df.getCol "Book Id").map (fun v => PyVal.vstr (pyStr v)) := by
  unfold mergeResult
  by_cases he : ids.isEmpty
  · rw [if_pos he, normalize_getCol_bookId]
  · rw [if_neg he, getCol_setCol_ne _ _ (by decide), normalize_getCol_bookId]

lemma resolveIds_eq (df : DataFrame) (mask : List Bool)
    (hid : df.hasCol "Book Id" = true) (hmask : needMask df = some mask) :
    resolveIds df = some (idsFromMask df mask) := by
  unfold resolveIds
  rw [if_pos hid, hmask]
  rfl

lemma resolveIds_some_inv (df : DataFrame) (ids : List String)
    (hid : df.hasCol "Book Id" = true) (hres : resolveIds df = some ids) :
    ∃ mask, needMask df = some mask ∧ ids = idsFromMask df mask := by
  unfold resolveIds at hres
  rw [if_pos hid] at hres
  cases hmask : needMask df with
  | none => rw [hmask] at hres; exact absurd hres (by simp)
  | some mask =>
    rw [hmask] at hres
    simp only [Option.map_some'] at hres
    exact ⟨mask, rfl, (Option.some.inj hres).symm⟩

lemma enrich_some (fetch : String → List String) (df : DataFrame)
    (ids : List String) (hid : df.hasCol "Book Id" = true)
    (hres : resolveIds df = some ids) :
    enrich_library fetch df = some (mergeResult fetch df ids) := by
  unfold enrich_library
  rw [if_pos hid, hres]
  rfl

lemma enrich_some_inv (fetch : String → List String) (df : DataFrame)
    (t : DataFrame) (hout : enrich_library fetch df = some t) :
    (df.hasCol "Book Id" = false ∧ t = df) ∨
    (∃ ids, resolveIds df = some ids ∧ t = mergeResult fetch df ids) := by
  unfold enrich_library at hout
  by_cases hid : df.hasCol "Book Id"
  · rw [if_pos hid] at hout
    cases hres : resolveIds df with
    | none => rw [hres] at hout; exact absurd hout (by simp)
    | some ids =>
      rw [hres] at hout
      simp only [Option.map_some'] at hout
      exact Or.inr ⟨ids, rfl, (Option.some.inj hout).symm⟩
  · rw [if_neg hid] at hout
    exact Or.inl ⟨Bool.eq_false_iff.mpr hid, (Option.some.inj hout).symm⟩

lemma enrich_genres_at (fetch : String → List String) (df : DataFrame)
    (mask : List Bool) (hwf : df.wf = true)
    (hid : df.hasCol "Book Id" = true) (hmask : needMask df = some mask)
    (i : Nat) (hi : i < df.nrows) :
    (enrich_library fetch df).map
      (fun t => (t.getCol "Genres").getD i PyVal.vnone) =
      some (if (idsFromMask df mask).contains ((bookIdStrs df).getD i "")
            then PyVal.vlist (fetch ((bookIdStrs df).getD i ""))
            else (preGenres df).getD i PyVal.vnone) := by
  rw [enrich_some fetch df (idsFromMask df mask) hid
    (resolveIds_eq df mask hid hmask)]
  simp only [Option.map_some']
  exact congrArg some (mergeResult_at fetch df (idsFromMask df mask)
    hwf hid i hi)

lemma mem_uniqueFirstAux (l : List String) :
    ∀ (seen : List String) (x : String),
      x ∈ uniqueFirstAux seen l ↔ x ∈ l ∧ seen.contains x = false := by
  induction l with
  | nil => intro seen x; simp [uniqueFirstAux]
  | cons a xs ih =>
    intro seen x
    unfold uniqueFirstAux
    by_cases hc : seen.contains a
    · rw [if_pos hc, ih seen x]
      constructor
      · rintro ⟨hx, hs⟩
        exact ⟨List.mem_cons_of_mem _ hx, hs⟩
      · rintro ⟨hx, hs⟩
        rcases List.mem_cons.mp hx with h | h
        · exact absurd (h ▸ hc) (by rw [hs]; simp)
        · exact ⟨h, hs⟩
    · rw [if_neg hc]
      by_cases hxa : x = a
      · subst hxa
        constructor
        · intro _
          exact ⟨List.mem_cons_self _ _, Bool.eq_false_iff.mpr hc⟩
        · intro _
          exact List.mem_cons_self _ _
      · constructor
        · intro hx
          rcases List.mem_cons.mp hx with h | h
          · exact absurd h hxa
          · obtain ⟨h1, h2⟩ := (ih (a :: seen) x).mp h
            refine ⟨List.mem_cons_of_mem _ h1, ?_⟩
            rw [List.contains_cons] at h2
            exact (Bool.or_eq_false_iff.mp h2).2
        · rintro ⟨hx, hs⟩
          rcases List.mem_cons.mp hx with h | h
          · exact absurd h hxa
          · refine List.mem_cons_of_mem _ ?_
            refine (ih (a :: seen) x).mpr ⟨h, ?_⟩
            rw [List.contains_cons, Bool.or_eq_false_iff]
            exact ⟨by simpa using hxa, hs⟩

theorem uniqueFirst_mem (l : List String) (x : String) :
    x ∈ uniqueFirst l ↔ x ∈ l := by
  unfold uniqueFirst
  rw [mem_uniqueFirstAux]
  simp

lemma mem_idsFromMask (df : DataFrame) (mask : List Bool) (x : String) :
    x ∈ idsFromMask df mask ↔ pyIsDigit x = true ∧
      ∃ p, p ∈ mask.zip (bookIdStrs df) ∧ p.1 = true ∧ p.2 = x := by
  unfold idsFromMask
  rw [List.mem_filter, uniqueFirst_mem, List.mem_filterMap]
  constructor
  · rintro ⟨⟨p, hp, hpx⟩, hdig⟩
    refine ⟨hdig, p, hp, ?_, ?_⟩
    · by_cases h1 : p.1 = true
      · exact h1
      · rw [if_neg h1] at hpx; exact absurd hpx (by simp)
    · by_cases h1 : p.1 = true
      · rw [if_pos h1] at hpx; exact Option.some.inj hpx
      · rw [if_neg h1] at hpx; exact absurd hpx (by simp)
  · rintro ⟨hdig, p, hp, h1, h2⟩
    exact ⟨⟨p, hp, by rw [if_pos h1, h2]⟩, hdig⟩

lemma mem_idsFromMask_of_index (df : DataFrame) (mask : List Bool)
    (hwf : df.wf = true) (hid : df.hasCol "Book Id" = true)
    (hmask : needMask df = some mask) (i : Nat) (hi : i < df.nrows)
    (hneed : mask.getD i false = true)
    (hdigit : pyIsDigit ((bookIdStrs df).getD i "") = true) :
    (bookIdStrs df).getD i "" ∈ idsFromMask df mask := by
  have h1 : i < mask.length := by
    rw [length_needMask df mask hwf hmask]; exact hi
  have h2 : i < (bookIdStrs df).length := by
    rw [length_bookIdStrs df hwf hid]; exact hi
  have hz : i < (mask.zip (bookIdStrs df)).length := by
    rw [List.length_zip]; exact lt_min h1 h2
  rw [mem_idsFromMask]
  refine ⟨hdigit, (mask.zip (bookIdStrs df))[i], ?_, ?_, ?_⟩
  · exact List.getElem_mem hz
  · rw [List.getElem_zip]
    rw [List.getD_eq_getElem _ _ h1] at hneed
    exact hneed
  · rw [List.getElem_zip]
    rw [List.getD_eq_getElem _ _ h2]

lemma is_empty_genres_some_true_iff (v : PyVal) :
    _is_empty_genres v = some true ↔
      (v = PyVal.vnone ∨ v = PyVal.vlist [] ∨
        (∃ s, v = PyVal.vstr s ∧ (pyStrip s = "" ∨ pyStrip s = "[]"))) := by
  cases v with
  | vnone => simp [_is_empty_genres]
  | vstr s => simp [_is_empty_genres]
  | vint n => simp [_is_empty_genres]
  | vlist l =>
    simp only [_is_empty_genres]
    by_cases hl : 2 ≤ l.length
    · rw [if_pos hl]
      have hne : l ≠ [] := by
        intro e
        subst e
        simp at hl
      simp [hne]
    · rw [if_neg hl]
      simp [List.isEmpty_iff]

lemma is_empty_genres_none_iff (v : PyVal) :
    _is_empty_genres v = none ↔
      ∃ l, v = PyVal.vlist l ∧ 2 ≤ l.length := by
  cases v with
  | vnone => simp [_is_empty_genres]
  | vstr s => simp [_is_empty_genres]
  | vint n => simp [_is_empty_genres]
  | vlist l =>
    simp only [_is_empty_genres]
    by_cases hl : 2 ≤ l.length
    · rw [if_pos hl]
      simp [hl]
    · rw [if_neg hl]
      simp [hl]

/-! ### Claim theorems -/

/-- C1 (Merge correctness): on every valid table with a Book Id column
whose resolver completes with the submitted identifier list `ids` (the
key set of the fetch-result mapping), `enrich_library` returns a table
in which every row whose stringified identifier is in `ids` has its
Genres cell overwritten with the fetched sequence — even when that
sequence is empty — and every row whose identifier is not in `ids` keeps
the genre value it carried before the merge.  The example instance (rows
id=1/None, id=2/None, id=3/["Drama"] under {"1": ["Fiction"], "2": []})
is evaluated in the witness. -/
theorem merge_correctness (fetch : String → List String) (df : DataFrame)
    (ids : List String) (hwf : df.wf = true)
    (hid : df.hasCol "Book Id" = true)
    (hres : resolveIds df = some ids) (i : Nat) (hi : i < df.nrows) :
    (enrich_library fetch df).map
      (fun t => (t.getCol "Genres").getD i PyVal.vnone) =
      some (if ids.contains ((bookIdStrs df).getD i "") then
              PyVal.vlist (fetch ((bookIdStrs df).getD i ""))
            else (preGenres df).getD i PyVal.vnone) := by
  obtain ⟨mask, hmask, hids⟩ := resolveIds_some_inv df ids hid hres
  subst hids
  exact enrich_genres_at fetch df mask hwf hid hmask i hi

/-- C1 witness: the merge-correctness theorem applied to the spec's own
example at row 1 (the fetched-empty row), plus the full evaluated
outcome: row 0 becomes ["Fiction"], row 1 becomes [] (not None), row 2
stays ["Drama"]. -/
theorem merge_correctness_witness :
    mergeExampleTable.wf = true ∧
    mergeExampleTable.hasCol "Book Id" = true ∧
    resolveIds mergeExampleTable = some ["1", "2"] ∧
    1 < mergeExampleTable.nrows ∧
    ((enrich_library mergeExampleFetch mergeExampleTable).map
      (fun t => (t.getCol "Genres").getD 1 PyVal.vnone) =
      some (if ["1", "2"].contains
          ((bookIdStrs mergeExampleTable).getD 1 "") then
        PyVal.vlist (mergeExampleFetch
          ((bookIdStrs mergeExampleTable).getD 1 ""))
      else (preGenres mergeExampleTable).getD 1 PyVal.vnone)) ∧
    (enrich_library mergeExampleFetch mergeExampleTable).map
      (fun t => t.getCol "Genres") =
      some [PyVal.vlist ["Fiction"], PyVal.vlist [], PyVal.vlist ["Drama"]] :=
  ⟨by decide, by decide, by decide, by decide,
   merge_correctness mergeExampleFetch mergeExampleTable ["1", "2"]
     (by decide) (by decide) (by decide) 1 (by decide),
   by decide⟩

/-- C2: the claim of row-count invariance for every valid DataFrame is
right as a specification, but the code fails it: on a valid one-row
table whose Genres cell holds the two-element list ["Drama", "Fiction"]
(exactly the shape the merge itself writes), line 58's
`if pd.isna(val)` tests the truth of a two-element boolean array and
raises ValueError, so `enrich_library` returns no table at all — there
is no output table whose row count could match.  This theorem evaluates
the code at that failing input. -/
theorem enrich_raises_on_multi_genre_cell :
    crashTable.wf = true ∧
    crashTable.nrows = 1 ∧
    _is_empty_genres (PyVal.vlist ["Drama", "Fiction"]) = none ∧
    enrich_library (fun _ => []) crashTable = none := by decide

/-- C3 counterexample: in `dupIdTable`, record 0 already holds the
non-empty, non-blank genre list ["Drama"], yet its identifier "7" IS
selected for fetching, because record 1 shares the identifier and lacks
genre data — refuting "never selects that record's identifier". -/
theorem idempotent_reclassification_counterexample :
    (dupIdTable.getCol "Genres").getD 0 PyVal.vnone =
      PyVal.vlist ["Drama"] ∧
    resolveIds dupIdTable = some ["7"] ∧
    (bookIdStrs dupIdTable).getD 0 "" = "7" := by decide

/-- C3 amended (Idempotent re-classification, per record): when the
classifier returns at all, a record is classified as needing enrichment
exactly when its genre value is null, an empty sequence, a blank string,
or the (stripped) textual form of an empty list — in particular never
when it holds a one-element genre sequence — while on a genre sequence
of two or more tags the classifier raises ValueError instead of
classifying; and an identifier enters the fetch set only if it is all
digits (in Python's `isdigit` sense) and carried by some record
classified as needing enrichment, so a record holding genres can only be
fetched via another record that shares its identifier. -/
theorem idempotent_reclassification (v : PyVal) (df : DataFrame)
    (mask : List Bool) (ids : List String) (id : String)
    (hmask : needMask df = some mask) (hres : resolveIds df = some ids)
    (h : id ∈ ids) :
    (_is_empty_genres v = some true ↔
      (v = PyVal.vnone ∨ v = PyVal.vlist [] ∨
        (∃ s, v = PyVal.vstr s ∧ (pyStrip s = "" ∨ pyStrip s = "[]")))) ∧
    (_is_empty_genres v = none ↔
      ∃ l, v = PyVal.vlist l ∧ 2 ≤ l.length) ∧
    pyIsDigit id = true ∧
    (∃ p, p ∈ mask.zip (bookIdStrs df) ∧ p.1 = true ∧ p.2 = id) := by
  have key : pyIsDigit id = true ∧
      ∃ p, p ∈ mask.zip (bookIdStrs df) ∧ p.1 = true ∧ p.2 = id := by
    by_cases hid : df.hasCol "Book Id"
    · obtain ⟨mask2, hmask2, hids⟩ := resolveIds_some_inv df ids hid hres
      have hmm : mask2 = mask := Option.some.inj (hmask2.symm.trans hmask)
      subst hids
      rw [hmm] at h
      exact (mem_idsFromMask df mask id).mp h
    · exfalso
      unfold resolveIds at hres
      rw [if_neg hid] at hres
      rw [← Option.some.inj hres] at h
      exact absurd h (List.not_mem_nil _)
  exact ⟨is_empty_genres_some_true_iff v, is_empty_genres_none_iff v,
    key.1, key.2⟩

/-- C3 witness: the amended theorem applied at v = ["Drama"] (a held
one-tag genre list, classified as not needing enrichment) and the
selected identifier "3" of `needyTable`. -/
theorem idempotent_reclassification_witness :
    needMask needyTable = some [true] ∧
    resolveIds needyTable = some ["3"] ∧
    "3" ∈ ["3"] ∧
    ((_is_empty_genres (PyVal.vlist ["Drama"]) = some true ↔
      (PyVal.vlist ["Drama"] = PyVal.vnone ∨
        PyVal.vlist ["Drama"] = PyVal.vlist [] ∨
        (∃ s, PyVal.vlist ["Drama"] = PyVal.vstr s ∧
          (pyStrip s = "" ∨ pyStrip s = "[]")))) ∧
    (_is_empty_genres (PyVal.vlist ["Drama"]) = none ↔
      ∃ l, PyVal.vlist ["Drama"] = PyVal.vlist l ∧ 2 ≤ l.length) ∧
    pyIsDigit "3" = true ∧
    (∃ p, p ∈ ([true] : List Bool).zip (bookIdStrs needyTable) ∧
      p.1 = true ∧ p.2 = "3")) :=
  ⟨by decide, by decide, by decide,
   idempotent_reclassification (PyVal.vlist ["Drama"]) needyTable
     [true] ["3"] "3" (by decide) (by decide) (by decide)⟩

/-- C4 (Failure absorption): `scrape_book_data` is total and returns a
pair of the same identifier with a genre list; every failure mode (bad
HTTP status, timeout, parse error, any exception) resolves to
(identifier, []); and when every fetch fails and the classification
completes, `enrich_library` (which lets no FETCH exception escape — the
only uncaught exception is the classification ValueError, before any
fetch) returns a table giving every submitted identifier's row an empty
genre sequence. -/
theorem fetch_never_raises (world : String → FetchOutcome)
    (book_id : String) (df : DataFrame) (hwf : df.wf = true)
    (hid : df.hasCol "Book Id" = true) :
    (scrape_book_data world book_id).1 = book_id ∧
    ((world book_id).isFailure = true →
      scrape_book_data world book_id = (book_id, [])) ∧
    ((∀ j, (world j).isFailure = true) →
      ∀ mask, needMask df = some mask →
        ∀ i, i < df.nrows →
          (idsFromMask df mask).contains ((bookIdStrs df).getD i "") =
            true →
          (enrich_library (fun j => (scrape_book_data world j).2) df).map
            (fun t => (t.getCol "Genres").getD i PyVal.vnone) =
            some (PyVal.vlist [])) := by
  refine ⟨?_, ?_, ?_⟩
  · cases hw : world book_id <;> simp [scrape_book_data, hw]
  · intro hf
    cases hw : world book_id with
    | ok texts =>
      rw [hw] at hf
      exact absurd hf (by simp [FetchOutcome.isFailure])
    | httpError s => simp [scrape_book_data, hw]
    | otherExn => simp [scrape_book_data, hw]
  · intro hall mask hmask i hi hc
    rw [enrich_genres_at _ df mask hwf hid hmask i hi, if_pos hc]
    generalize (bookIdStrs df).getD i "" = b
    have hf := hall b
    cases hw : world b with
    | ok texts =>
      rw [hw] at hf
      exact absurd hf (by simp [FetchOutcome.isFailure])
    | httpError s => simp [scrape_book_data, hw]
    | otherExn => simp [scrape_book_data, hw]

/-- C4 witness: under a world answering 404 to everything, the scrape of
"5" returns ("5", []), and row 0 of `needyTable5` ends with []. -/
theorem fetch_never_raises_witness :
    needyTable5.wf = true ∧ needyTable5.hasCol "Book Id" = true ∧
    ((scrape_book_data allFail404 "5").1 = "5" ∧
    ((allFail404 "5").isFailure = true →
      scrape_book_data allFail404 "5" = ("5", [])) ∧
    ((∀ j, (allFail404 j).isFailure = true) →
      ∀ mask, needMask needyTable5 = some mask →
        ∀ i, i < needyTable5.nrows →
          (idsFromMask needyTable5 mask).contains
            ((bookIdStrs needyTable5).getD i "") = true →
          (enrich_library (fun j => (scrape_book_data allFail404 j).2)
              needyTable5).map
            (fun t => (t.getCol "Genres").getD i PyVal.vnone) =
            some (PyVal.vlist []))) :=
  ⟨by decide, by decide,
   fetch_never_raises allFail404 "5" needyTable5 (by decide) (by decide)⟩

/-- C5 counterexample: `intIdTable` (int identifier 5, genres already
["X"]) yields an empty resolver set, yet the table the call returns
differs from the input — line 51's astype(str) rewrote the Book Id cell
to "5". -/
theorem empty_set_short_circuit_counterexample :
    resolveIds intIdTable = some [] ∧
    enrich_library (fun _ => []) intIdTable ≠ some intIdTable := by decide

/-- C5 amended (Empty-set short circuit): whenever the resolver
completes and produces an empty identifier set, no identifier is
submitted to the pool (no network call is made) and the call returns the
input table after the line 50-55 normalisation only — the identifier
column coerced to string form and, when absent, a Genres column of null
placeholders appended; in particular the result does not depend on the
fetch function, and a table whose identifiers are already strings and
which has a Genres column is returned verbatim. -/
theorem empty_set_short_circuit (fetch : String → List String)
    (df : DataFrame) (hres : resolveIds df = some []) :
    enrich_calls df = [] ∧
    enrich_library fetch df = some (normalizeTable df) := by
  refine ⟨?_, ?_⟩
  · unfold enrich_calls
    rw [hres]
    rfl
  · by_cases hid : df.hasCol "Book Id"
    · rw [enrich_some fetch df [] hid hres]
      unfold mergeResult
      rfl
    · unfold enrich_library
      rw [if_neg hid]
      unfold normalizeTable
      rw [if_neg hid]

/-- C5 witness: the amended theorem applied to `enrichedTable`, where the
normalised table is the input itself, so enrichment returns the input
and makes no call. -/
theorem empty_set_short_circuit_witness :
    resolveIds enrichedTable = some [] ∧
    enrich_calls enrichedTable = [] ∧
    enrich_library (fun _ => ["junk"]) enrichedTable =
      some (normalizeTable enrichedTable) ∧
    normalizeTable enrichedTable = enrichedTable :=
  ⟨by decide,
   (empty_set_short_circuit (fun _ => ["junk"]) enrichedTable
     (by decide)).1,
   (empty_set_short_circuit (fun _ => ["junk"]) enrichedTable
     (by decide)).2,
   by decide⟩

/-- C6 counterexample: the identifier "²" (superscript two) is not
composed of decimal digits, yet Python str.isdigit accepts it
(Numeric_Type=Digit), so the code submits it for fetching when its row
needs enrichment. -/
theorem malformed_identifier_exclusion_counterexample :
    ("²".toList.all Char.isDigit) = false ∧
    resolveIds superDigitTable = some ["²"] := by decide

/-- C6 amended (Malformed-identifier exclusion): an identifier enters
the submitted set only if Python's str.isdigit accepts it — every
character a digit in Python's sense (the decimal digits together with
Unicode digit forms such as superscripts).  Identifiers containing any
other character (e.g. "abc123", "12-34") are never submitted, and the
exclusion is silent (the resolver is total apart from the genre-cell
ValueError — the identifier filter itself never raises); but exclusion
of everything non-decimal does not hold: "²" is submitted. -/
theorem malformed_identifier_exclusion (df : DataFrame)
    (ids : List String) (id : String) (h : pyIsDigit id = false)
    (hres : resolveIds df = some ids) : id ∉ ids := by
  intro hmem
  by_cases hid : df.hasCol "Book Id"
  · obtain ⟨mask, hmask, hids⟩ := resolveIds_some_inv df ids hid hres
    subst hids
    have hdig := ((mem_idsFromMask df mask id).mp hmem).1
    rw [h] at hdig
    exact absurd hdig (by simp)
  · unfold resolveIds at hres
    rw [if_neg hid] at hres
    rw [← Option.some.inj hres] at hmem
    exact absurd hmem (List.not_mem_nil _)

/-- C6 witness: "abc123" is excluded from the submitted set of a table
that carries it (with needy genres) next to a fetchable identifier. -/
theorem malformed_identifier_exclusion_witness :
    pyIsDigit "abc123" = false ∧
    resolveIds mixedTable = some ["10"] ∧
    "abc123" ∉ (["10"] : List String) :=
  ⟨by decide, by decide,
   malformed_identifier_exclusion mixedTable ["10"] "abc123"
     (by decide) (by decide)⟩

/-- C7 counterexample: on `intIdTable2` the Book Id column — a non-genre
column — is NOT identical before and after enrichment: astype(str) turns
the int cell 12 into the string "12". -/
theorem frame_condition_counterexample :
    (enrich_library (fun _ => []) intIdTable2).map
      (fun t => t.getCol "Book Id") = some [PyVal.vstr "12"] ∧
    intIdTable2.getCol "Book Id" = [PyVal.vint 12] ∧
    (some [PyVal.vstr "12"] : Option (List PyVal)) ≠
      some [PyVal.vint 12] := by decide

/-- C7 amended (Frame condition): whenever `enrich_library` returns a
table, every column other than the genre column and the identifier
column passes through unmodified (same cells in the same order, and
column presence is preserved), while the identifier column's cells are
replaced by their string forms (unchanged when already strings).  On
tables whose genre column holds a multi-element list, classification
raises and no table is returned at all. -/
theorem frame_condition (fetch : String → List String)
    (df t : DataFrame) (m : String) (h1 : m ≠ "Book Id")
    (h2 : m ≠ "Genres") (hout : enrich_library fetch df = some t) :
    t.getCol m = df.getCol m ∧ t.hasCol m = df.hasCol m ∧
    t.getCol "Book Id" =
      (df.getCol "Book Id").map (fun v => PyVal.vstr (pyStr v)) := by
  rcases enrich_some_inv fetch df t hout with ⟨hid, h⟩ | ⟨ids, _, h⟩
  · rw [h]
    refine ⟨rfl, rfl, ?_⟩
    rw [getCol_eq_nil df _ hid]
    rfl
  · rw [h]
    exact ⟨mergeResult_getCol_other fetch df ids h1 h2,
      mergeResult_hasCol_other fetch df ids h1 h2,
      mergeResult_getCol_bookId fetch df ids⟩

/-- C7 witness: on the three-column `titledTable`, enrichment returns
`titledOut`, in which the Title column is untouched and Book Id keeps
its (already-string) cells. -/
theorem frame_condition_witness :
    enrich_library (fun _ => ["G"]) titledTable = some titledOut ∧
    (titledOut.getCol "Title" = titledTable.getCol "Title" ∧
     titledOut.hasCol "Title" = titledTable.hasCol "Title" ∧
     titledOut.getCol "Book Id" =
       (titledTable.getCol "Book Id").map
         (fun v => PyVal.vstr (pyStr v))) :=
  ⟨by decide,
   frame_condition (fun _ => ["G"]) titledTable titledOut "Title"
     (by decide) (by decide) (by decide)⟩

/-- C8 (Missing-column no-op): a table without a Book Id column is
returned by `enrich_library` exactly as given, with no exception — the
line 47-48 guard returns before any classification, so not even the
genre-cell ValueError is reachable. -/
theorem missing_column_noop (fetch : String → List String)
    (df : DataFrame) (h : df.hasCol "Book Id" = false) :
    enrich_library fetch df = some df := by
  unfold enrich_library
  rw [if_neg (by rw [h]; simp)]

/-- C8 witness: the Title-only table passes through unchanged. -/
theorem missing_column_noop_witness :
    noIdTable.hasCol "Book Id" = false ∧
    enrich_library (fun _ => ["G"]) noIdTable = some noIdTable :=
  ⟨by decide, missing_column_noop (fun _ => ["G"]) noIdTable (by decide)⟩

/-- C9: the dashboard (src/dashboard.py line 161) invokes
`enrich_library` with the keyword argument `progress_callback`, but
`enrich_library` (src/enrich.py line 43) declares only the parameter
`df`: the call does not bind — at runtime Python raises
`TypeError: unexpected keyword argument` — so the enrichment operation
exposes no progress-callback interface and never invokes a callback. -/
theorem progress_callback_not_accepted :
    acceptsKwargs enrich_library_params dashboard_enrich_kwargs = false ∧
    dashboard_enrich_kwargs ≠ [] := by decide

/-- C10 (Duplicate-identifier overwrite): if the classification
completes with mask `mask`, rows i and j share the same stringified
identifier, row i needs enrichment and the identifier is all digits
(hence is fetched), then the returned table has the Genres cell of BOTH
rows overwritten with the fetched sequence — the merge mask is keyed by
identifier value, not by which rows were classified. -/
theorem duplicate_identifier_overwrite (fetch : String → List String)
    (df : DataFrame) (mask : List Bool) (hwf : df.wf = true)
    (hid : df.hasCol "Book Id" = true)
    (hmask : needMask df = some mask) (i j : Nat)
    (hi : i < df.nrows) (hj : j < df.nrows)
    (hsame : (bookIdStrs df).getD j "" = (bookIdStrs df).getD i "")
    (hneed : mask.getD i false = true)
    (hdigit : pyIsDigit ((bookIdStrs df).getD i "") = true) :
    (enrich_library fetch df).map
      (fun t => (t.getCol "Genres").getD i PyVal.vnone) =
      some (PyVal.vlist (fetch ((bookIdStrs df).getD i ""))) ∧
    (enrich_library fetch df).map
      (fun t => (t.getCol "Genres").getD j PyVal.vnone) =
      some (PyVal.vlist (fetch ((bookIdStrs df).getD i ""))) := by
  have hmem : (bookIdStrs df).getD i "" ∈ idsFromMask df mask :=
    mem_idsFromMask_of_index df mask hwf hid hmask i hi hneed hdigit
  have hci : (idsFromMask df mask).contains
      ((bookIdStrs df).getD i "") = true := by
    simpa using hmem
  constructor
  · rw [enrich_genres_at fetch df mask hwf hid hmask i hi, if_pos hci]
  · rw [enrich_genres_at fetch df mask hwf hid hmask j hj, hsame,
      if_pos hci]

/-- C10 witness: in `dupIdTable2` row 0 (id "8", no genres) triggers the
fetch and row 1 (id "8", genres ["Old"]) is overwritten too. -/
theorem duplicate_identifier_overwrite_witness :
    dupIdTable2.wf = true ∧
    needMask dupIdTable2 = some [true, false] ∧
    ((enrich_library (fun _ => ["New"]) dupIdTable2).map
      (fun t => (t.getCol "Genres").getD 0 PyVal.vnone) =
      some (PyVal.vlist ((fun _ => ["New"] : String → List String)
        ((bookIdStrs dupIdTable2).getD 0 ""))) ∧
    (enrich_library (fun _ => ["New"]) dupIdTable2).map
      (fun t => (t.getCol "Genres").getD 1 PyVal.vnone) =
      some (PyVal.vlist ((fun _ => ["New"] : String → List String)
        ((bookIdStrs dupIdTable2).getD 0 "")))) :=
  ⟨by decide, by decide,
   duplicate_identifier_overwrite (fun _ => ["New"]) dupIdTable2
     [true, false] (by decide) (by decide) (by decide) 0 1 (by decide)
     (by decide) (by decide) (by decide) (by decide)⟩
